import Mathlib

/-!
Shallow embedding of `src/enrich.py` (city-spending-enricher).

The program enriches CSV expense rows by calling three HTTP lookup
services (geocoding, current weather, currency conversion) and emits the
enriched collection.  Network I/O is modelled by an explicit outcome type
`HttpOutcome`: each constructor corresponds to one way a call inside the
`try:` block can raise (transport error, timeout, `raise_for_status`,
`r.json()` parse failure) or to a successfully parsed payload.  Numeric
values are modelled by `Rat`.  The wall clock is an explicit `UtcTime`
argument.  The thread pool's nondeterministic `as_completed` order is
modelled by an explicit completion permutation.
-/

namespace Enrich

/-- Outcome of one `session.get(...)` call as observed by the client code:
either an exception raised inside the `try:` block (transport failure,
timeout, non-success HTTP status via `raise_for_status`, or a payload that
fails to parse as JSON), or a successfully parsed structured payload. -/
inductive HttpOutcome (α : Type) where
  | transportError : HttpOutcome α
  | timeout : HttpOutcome α
  | httpError (status : Nat) : HttpOutcome α
  | malformed : HttpOutcome α
  | ok (payload : α) : HttpOutcome α
deriving DecidableEq, Repr

/-- One entry of the geocoding response's `results` array; either
coordinate key may be missing (`hit.get(...)` returning `None`). -/
structure GeoHit where
  latitude : Option Rat
  longitude : Option Rat
deriving DecidableEq, Repr

/-- The `current_weather` object of the weather response; either key may
be missing. -/
structure CurrentWeather where
  temperature : Option Rat
  windspeed : Option Rat
deriving DecidableEq, Repr

/-- Weather response payload: `data.get("current_weather")` may be absent. -/
structure WeatherPayload where
  current_weather : Option CurrentWeather
deriving DecidableEq, Repr

/-- The `info` object of the FX response; the `rate` key may be missing. -/
structure FxInfo where
  rate : Option Rat
deriving DecidableEq, Repr

/-- FX response payload: top-level `result` and `info` may be absent. -/
structure FxPayload where
  result : Option Rat
  info : Option FxInfo
deriving DecidableEq, Repr

/-- Successful geocode result: `{"lat": ..., "lon": ...}`. -/
structure Coords where
  lat : Rat
  lon : Rat
deriving DecidableEq, Repr

/-- Successful weather result: `{"temperature_c": ..., "wind_speed_mps": ...}`. -/
structure Weather where
  temperature_c : Rat
  wind_speed_mps : Rat
deriving DecidableEq, Repr

/-- Successful FX result: `{"fx_rate_to_usd": ..., "amount_usd": ...}`. -/
structure FxResult where
  fx_rate_to_usd : Rat
  amount_usd : Rat
deriving DecidableEq, Repr

/-- `geocode_city`: processes the geocoding call's outcome.  Mirrors the
Python body: any exception yields `None`; `data.get("results") or []`
yields the hit list; an empty list yields `None`; a first hit missing
either coordinate yields `None`; otherwise the coordinate pair. -/
def geocode_city (resp : HttpOutcome (List GeoHit)) : Option Coords :=
  match resp with
  | .ok results =>
    match results with
    | [] => none
    | hit :: _ =>
      match hit.latitude, hit.longitude with
      | some lat, some lon => some { lat := lat, lon := lon }
      | _, _ => none
  | _ => none

/-- `get_current_weather`: processes the weather call's outcome.
`data.get("current_weather") or {}` defaults a missing object to an empty
one, whose key lookups then yield `None`. -/
def get_current_weather (resp : HttpOutcome WeatherPayload) : Option Weather :=
  match resp with
  | .ok data =>
    let cw := data.current_weather.getD { temperature := none, windspeed := none }
    match cw.temperature, cw.windspeed with
    | some temp, some wind => some { temperature_c := temp, wind_speed_mps := wind }
    | _, _ => none
  | _ => none

/-- `fx_to_usd`: processes the conversion call's outcome.  `result` comes
from the top level, `rate` from `data.get("info") or {}`; both must be
present. -/
def fx_to_usd (resp : HttpOutcome FxPayload) : Option FxResult :=
  match resp with
  | .ok data =>
    let result := data.result
    let info := data.info.getD { rate := none }
    match result, info.rate with
    | some r, some rate => some { fx_rate_to_usd := rate, amount_usd := r }
    | _, _ => none
  | _ => none

/-- ASCII whitespace, as stripped by Python's `str.strip()`. -/
def isSpace (c : Char) : Bool :=
  c = ' ' || c = '\t' || c = '\n' || c = '\r' || c = '\x0b' || c = '\x0c'

/-- Strip whitespace from both ends of a character list. -/
def stripChars (cs : List Char) : List Char :=
  (((cs.dropWhile isSpace).reverse).dropWhile isSpace).reverse

/-- Python `str.strip()` (whitespace removed at both ends). -/
def strip (s : String) : String := String.mk (stripChars s.toList)

/-- Models Python's builtin `float(...)` restricted to plain decimal
strings: surrounding whitespace is ignored, an optional sign is followed
by digits with at most one decimal point and at least one digit overall
(`"12"`, `"12.5"`, `".5"`, `"5."`, `"-1"`).  Exponent notation and the
special values `inf`/`nan` are outside the model. -/
def pyFloat (s : String) : Option Rat :=
  let t := stripChars s.toList
  let (neg, body) :=
    match t with
    | '-' :: rest => (true, rest)
    | '+' :: rest => (false, rest)
    | cs => (false, cs)
  let intPart := body.takeWhile (fun c => c ≠ '.')
  let rest := body.dropWhile (fun c => c ≠ '.')
  if !intPart.all Char.isDigit then none
  else
    match rest with
    | [] =>
      if intPart.isEmpty then none
      else
        let v : Rat := (intPart.foldl (fun a c => a * 10 + (c.toNat - 48)) 0 : Nat)
        some (if neg then -v else v)
    | _ :: fracPart =>
      if !fracPart.all Char.isDigit then none
      else if intPart.isEmpty && fracPart.isEmpty then none
      else
        let iv : Nat := intPart.foldl (fun a c => a * 10 + (c.toNat - 48)) 0
        let fv : Nat := fracPart.foldl (fun a c => a * 10 + (c.toNat - 48)) 0
        let v : Rat := (iv : Rat) + (fv : Rat) / ((10 : Rat) ^ fracPart.length)
        some (if neg then -v else v)

/-- `parse_amount`: `float(val)`, rejecting negative results; any
conversion failure yields `None`. -/
def parse_amount (val : String) : Option Rat :=
  match pyFloat val with
  | none => none
  | some amt => if amt < 0 then none else some amt

/-- Wall-clock value passed explicitly where the Python code reads
`datetime.now(timezone.utc)`. -/
structure UtcTime where
  year : Nat
  month : Nat
  day : Nat
  hour : Nat
  minute : Nat
  second : Nat
deriving DecidableEq, Repr

def pad2 (n : Nat) : String :=
  if n < 10 then "0" ++ toString n else toString n

def pad4 (n : Nat) : String :=
  if n < 10 then "000" ++ toString n
  else if n < 100 then "00" ++ toString n
  else if n < 1000 then "0" ++ toString n
  else toString n

/-- `_utc_now_iso`: ISO-8601 UTC timestamp at second precision with the
`+00:00` suffix replaced by `Z`. -/
def utc_now_iso (t : UtcTime) : String :=
  pad4 t.year ++ "-" ++ pad2 t.month ++ "-" ++ pad2 t.day ++ "T" ++
    pad2 t.hour ++ ":" ++ pad2 t.minute ++ ":" ++ pad2 t.second ++ "Z"

/-- One CSV data row as handed to `enrich_one`: each of the four fields
may be missing or `None` (`row.get(k)` yielding `None`). -/
structure Row where
  city : Option String
  country_code : Option String
  local_currency : Option String
  amount : Option String
deriving DecidableEq, Repr

/-- The `EnrichedRow` dataclass. -/
structure EnrichedRow where
  city : String
  country_code : String
  local_currency : String
  amount_local : Option Rat := none
  fx_rate_to_usd : Option Rat := none
  amount_usd : Option Rat := none
  latitude : Option Rat := none
  longitude : Option Rat := none
  temperature_c : Option Rat := none
  wind_speed_mps : Option Rat := none
  retrieved_at : String := ""
deriving DecidableEq, Repr

/-- The shared HTTP session, abstracted as the behaviour each service
exhibits for given request parameters. -/
structure Session where
  geo : String → String → HttpOutcome (List GeoHit)
  weather : Rat → Rat → HttpOutcome WeatherPayload
  fx : String → Rat → HttpOutcome FxPayload

/-- `enrich_one`: the per-row orchestration, mirroring the Python control
flow (geocode; weather only when both coordinates were set; FX only when
the amount parsed and the currency is non-empty). -/
def enrich_one (row : Row) (session : Session) (clock : UtcTime) : EnrichedRow :=
  let city := strip (row.city.getD "")
  let cc := strip (row.country_code.getD "")
  let cur := strip (row.local_currency.getD "")
  let amt := parse_amount (strip (row.amount.getD ""))
  let out : EnrichedRow :=
    { city := city, country_code := cc, local_currency := cur,
      amount_local := amt, retrieved_at := utc_now_iso clock }
  let out :=
    match geocode_city (session.geo city cc) with
    | some geo => { out with latitude := some geo.lat, longitude := some geo.lon }
    | none => out
  let out :=
    match out.latitude, out.longitude with
    | some la, some lo =>
      match get_current_weather (session.weather la lo) with
      | some w =>
        { out with temperature_c := some w.temperature_c,
                   wind_speed_mps := some w.wind_speed_mps }
      | none => out
    | _, _ => out
  let out :=
    match amt with
    | some a =>
      if cur ≠ "" then
        match fx_to_usd (session.fx cur a) with
        | some fx =>
          { out with fx_rate_to_usd := some fx.fx_rate_to_usd,
                     amount_usd := some fx.amount_usd }
        | none => out
      else out
    | none => out
  out

/-- Closed-form characterization of `enrich_one`, used as a proof
vehicle: each optional field is the mapped image of the lookup it comes
from (weather gated on geocode success, FX gated on a valid amount and a
non-empty currency). -/
def enrichSpec (row : Row) (session : Session) (clock : UtcTime) : EnrichedRow :=
  let city := strip (row.city.getD "")
  let cc := strip (row.country_code.getD "")
  let cur := strip (row.local_currency.getD "")
  let amt := parse_amount (strip (row.amount.getD ""))
  let geo := geocode_city (session.geo city cc)
  let wx :=
    match geo with
    | some c => get_current_weather (session.weather c.lat c.lon)
    | none => none
  let fx :=
    match amt with
    | some a => if cur ≠ "" then fx_to_usd (session.fx cur a) else none
    | none => none
  { city := city, country_code := cc, local_currency := cur,
    amount_local := amt,
    fx_rate_to_usd := fx.map FxResult.fx_rate_to_usd,
    amount_usd := fx.map FxResult.amount_usd,
    latitude := geo.map Coords.lat,
    longitude := geo.map Coords.lon,
    temperature_c := wx.map Weather.temperature_c,
    wind_speed_mps := wx.map Weather.wind_speed_mps,
    retrieved_at := utc_now_iso clock }

/-- The required CSV header set, in the order the source lists it. -/
def req_headers : List String := ["city", "country_code", "local_currency", "amount"]

/-- Payload of the `SystemExit` raised on a header mismatch. -/
structure SchemaError where
  missing : List String
  extra : List String
deriving DecidableEq, Repr

/-- The fatal message text, naming the missing and the unexpected columns. -/
def SchemaError.message (e : SchemaError) : String :=
  "Invalid headers. Expect " ++ toString req_headers ++ ". Missing: " ++
    toString e.missing ++ " Extra: " ++ toString e.extra

/-- `set(rdr.fieldnames or []) == req_headers` as a Boolean. -/
def headerSetMatches (fieldnames : List String) : Bool :=
  fieldnames.all (fun h => req_headers.contains h) &&
    req_headers.all (fun h => fieldnames.contains h)

/-- `load_rows`: header validation then the row list.  A `None` field-name
list (empty file) behaves as the empty list.  On mismatch the function
aborts with a `SchemaError` carrying the missing and the extra columns. -/
def load_rows (fieldnames : Option (List String)) (rows : List Row) :
    Except SchemaError (List Row) :=
  let fns := fieldnames.getD []
  if headerSetMatches fns then .ok rows
  else .error { missing := req_headers.filter (fun h => !fns.contains h),
                extra := (fns.filter (fun h => !req_headers.contains h)).dedup }

/-- The fan-in loop `for fut in as_completed(fut_map): enriched.append(fut.result())`:
futures complete in an arbitrary order `completion` (a permutation of the
task indices); the index stored as the value of `fut_map` is never read,
so results are appended purely in completion order. -/
def collect_results (results : List EnrichedRow) (completion : List Nat) : List EnrichedRow :=
  completion.filterMap (fun i => results.get? i)

/-- `main`'s data path after argument parsing: load and validate, fan out
`enrich_one` over the rows, fan in by completion order.  A schema error
propagates before any enrichment happens. -/
def run_pipeline (fieldnames : Option (List String)) (rows : List Row)
    (session : Session) (clock : UtcTime) (completion : List Nat) :
    Except SchemaError (List EnrichedRow) :=
  match load_rows fieldnames rows with
  | .error e => .error e
  | .ok rs =>
    .ok (collect_results (rs.map (fun r => enrich_one r session clock)) completion)

/-- Witness data: a row whose lookups will find nothing. -/
def rowA : Row :=
  { city := some "Aa", country_code := some "AA", local_currency := some "",
    amount := some "" }

/-- Witness data: a second row, distinguishable from `rowA`. -/
def rowB : Row :=
  { city := some "Bb", country_code := some "BB", local_currency := some "",
    amount := some "" }

/-- Witness data: a row with a valid amount and a non-empty currency. -/
def rowFx : Row :=
  { city := some "X", country_code := some "YY", local_currency := some "EUR",
    amount := some "5" }

/-- A session on which every service call fails at the transport level. -/
def failSess : Session :=
  { geo := fun _ _ => .transportError,
    weather := fun _ _ => .transportError,
    fx := fun _ _ => .transportError }

/-- A fixed clock value for witnesses. -/
def wClock : UtcTime :=
  { year := 2026, month := 10, day := 12, hour := 0, minute := 0, second := 0 }

/-- A header that lacks `amount` and carries an unexpected column. -/
def badHeader : List String :=
  ["city", "country_code", "local_currency", "extra_col"]

theorem enrich_one_eq_spec (row : Row) (session : Session) (clock : UtcTime) :
    enrich_one row session clock = enrichSpec row session clock := by
  simp only [enrich_one, enrichSpec]
  rcases hg : geocode_city (session.geo (strip (row.city.getD ""))
      (strip (row.country_code.getD ""))) with _ | g <;>
    rcases ha : parse_amount (strip (row.amount.getD "")) with _ | a <;>
    simp only [hg, ha]
  · rfl
  · by_cases hc : strip (row.local_currency.getD "") = "" <;>
      rcases hf : fx_to_usd (session.fx (strip (row.local_currency.getD "")) a) with _ | f <;>
      simp [hc, hf]
  · rcases hw : get_current_weather (session.weather g.lat g.lon) with _ | w <;>
      simp [hw]
  · rcases hw : get_current_weather (session.weather g.lat g.lon) with _ | w <;>
      by_cases hc : strip (row.local_currency.getD "") = "" <;>
      rcases hf : fx_to_usd (session.fx (strip (row.local_currency.getD "")) a) with _ | f <;>
      simp [hw, hc, hf]

theorem utc_now_iso_ne_empty (t : UtcTime) : utc_now_iso t ≠ "" := by
  intro h
  have h2 := congrArg String.length h
  simp [utc_now_iso, String.length_append] at h2
  exact (by decide : ("Z".length = 0) → False) h2.2

theorem headerSetMatches_iff (fns : List String) :
    headerSetMatches fns = true ↔ ∀ h : String, h ∈ fns ↔ h ∈ req_headers := by
  simp only [headerSetMatches, Bool.and_eq_true, List.all_eq_true]
  constructor
  · rintro ⟨h1, h2⟩ h
    constructor
    · intro hm
      simpa using h1 h hm
    · intro hm
      simpa using h2 h hm
  · intro h
    constructor
    · intro x hx
      simpa using (h x).mp hx
    · intro x hx
      simpa using (h x).mpr hx

theorem filterMap_get_range {α : Type} (l : List α) :
    (List.range l.length).filterMap (fun i => l.get? i) = l := by
  induction l with
  | nil => rfl
  | cons a t ih =>
    have h1 : List.range (a :: t).length = 0 :: (List.range t.length).map Nat.succ := by
      rw [List.length_cons, List.range_succ_eq_map]
    rw [h1, List.filterMap_cons, List.filterMap_map]
    show a :: List.filterMap ((fun i => (a :: t).get? i) ∘ Nat.succ)
        (List.range t.length) = a :: t
    rw [show ((fun i => (a :: t).get? i) ∘ Nat.succ) = fun i => t.get? i from rfl, ih]

theorem collect_results_perm (results : List EnrichedRow) (completion : List Nat)
    (h : completion.Perm (List.range results.length)) :
    (collect_results results completion).Perm results := by
  have h2 := h.filterMap (fun i => results.get? i)
  rw [filterMap_get_range] at h2
  exact h2

theorem load_rows_ok_eq {fieldnames : Option (List String)} {rows rs : List Row}
    (h : load_rows fieldnames rows = .ok rs) : rs = rows := by
  by_cases hm : headerSetMatches (fieldnames.getD []) = true <;>
    simp [load_rows, hm] at h
  exact h.symm

/-- C1: when the geocode lookup comes back "not found", the produced
record has latitude, longitude, temperature and wind speed all absent,
and the output does not depend on the weather service's behaviour at all
(the weather lookup is never made without coordinates). -/
theorem C1_geocode_failure (row : Row) (session : Session) (clock : UtcTime)
    (h : geocode_city (session.geo (strip (row.city.getD ""))
          (strip (row.country_code.getD ""))) = none) :
    (enrich_one row session clock).latitude = none ∧
    (enrich_one row session clock).longitude = none ∧
    (enrich_one row session clock).temperature_c = none ∧
    (enrich_one row session clock).wind_speed_mps = none ∧
    ∀ weather2 : Rat → Rat → HttpOutcome WeatherPayload,
      enrich_one row { session with weather := weather2 } clock =
        enrich_one row session clock := by
  simp [enrich_one_eq_spec, enrichSpec, h]

theorem C1_geocode_failure_witness :
    (enrich_one rowA failSess wClock).latitude = none ∧
    (enrich_one rowA failSess wClock).longitude = none ∧
    (enrich_one rowA failSess wClock).temperature_c = none ∧
    (enrich_one rowA failSess wClock).wind_speed_mps = none ∧
    ∀ weather2 : Rat → Rat → HttpOutcome WeatherPayload,
      enrich_one rowA { failSess with weather := weather2 } wClock =
        enrich_one rowA failSess wClock :=
  C1_geocode_failure rowA failSess wClock rfl

/-- C2: the record is always assembled (raw fields and timestamp are set
for every behaviour of the three clients); each client maps every
non-success outcome (transport failure, timeout, HTTP error status,
malformed payload, empty result set, missing payload fields) to `none`
instead of raising; and each failed lookup degrades to the corresponding
optional fields being absent on the produced record. -/
theorem C2_total_degradation (row : Row) (session : Session) (clock : UtcTime) :
    ((enrich_one row session clock).city = strip (row.city.getD "") ∧
     (enrich_one row session clock).country_code = strip (row.country_code.getD "") ∧
     (enrich_one row session clock).local_currency = strip (row.local_currency.getD "") ∧
     (enrich_one row session clock).retrieved_at = utc_now_iso clock) ∧
    (∀ r : HttpOutcome (List GeoHit), (∀ p, r ≠ .ok p) → geocode_city r = none) ∧
    geocode_city (.ok []) = none ∧
    (∀ (hit : GeoHit) (rest : List GeoHit),
      hit.latitude = none ∨ hit.longitude = none →
      geocode_city (.ok (hit :: rest)) = none) ∧
    (∀ r : HttpOutcome WeatherPayload, (∀ p, r ≠ .ok p) → get_current_weather r = none) ∧
    get_current_weather (.ok { current_weather := none }) = none ∧
    (∀ cw : CurrentWeather, cw.temperature = none ∨ cw.windspeed = none →
      get_current_weather (.ok { current_weather := some cw }) = none) ∧
    (∀ r : HttpOutcome FxPayload, (∀ p, r ≠ .ok p) → fx_to_usd r = none) ∧
    (∀ p : FxPayload, p.result = none ∨ (p.info.getD { rate := none }).rate = none →
      fx_to_usd (.ok p) = none) ∧
    (geocode_city (session.geo (strip (row.city.getD ""))
        (strip (row.country_code.getD ""))) = none →
      (enrich_one row session clock).latitude = none ∧
      (enrich_one row session clock).longitude = none ∧
      (enrich_one row session clock).temperature_c = none ∧
      (enrich_one row session clock).wind_speed_mps = none) ∧
    (∀ la lo : Rat, (enrich_one row session clock).latitude = some la →
      (enrich_one row session clock).longitude = some lo →
      get_current_weather (session.weather la lo) = none →
      (enrich_one row session clock).temperature_c = none ∧
      (enrich_one row session clock).wind_speed_mps = none) ∧
    (∀ a : Rat, parse_amount (strip (row.amount.getD "")) = some a →
      fx_to_usd (session.fx (strip (row.local_currency.getD "")) a) = none →
      (enrich_one row session clock).fx_rate_to_usd = none ∧
      (enrich_one row session clock).amount_usd = none) := by
  refine ⟨?_, ?_, rfl, ?_, ?_, rfl, ?_, ?_, ?_, ?_, ?_, ?_⟩
  · simp [enrich_one_eq_spec, enrichSpec]
  · intro r hr
    cases r with
    | ok p => exact absurd rfl (hr p)
    | transportError => rfl
    | timeout => rfl
    | httpError s => rfl
    | malformed => rfl
  · rintro hit rest (h | h) <;> simp [geocode_city, h]
  · intro r hr
    cases r with
    | ok p => exact absurd rfl (hr p)
    | transportError => rfl
    | timeout => rfl
    | httpError s => rfl
    | malformed => rfl
  · rintro cw (h | h) <;> simp [get_current_weather, h]
  · intro r hr
    cases r with
    | ok p => exact absurd rfl (hr p)
    | transportError => rfl
    | timeout => rfl
    | httpError s => rfl
    | malformed => rfl
  · rintro p (h | h) <;> simp [fx_to_usd, h]
  · intro h
    simp [enrich_one_eq_spec, enrichSpec, h]
  · intro la lo hla hlo hw
    rw [enrich_one_eq_spec] at hla hlo ⊢
    simp only [enrichSpec] at hla hlo ⊢
    rcases hg : geocode_city (session.geo (strip (row.city.getD ""))
        (strip (row.country_code.getD ""))) with _ | c <;> simp [hg] at hla hlo ⊢
    subst hla hlo
    simp [hw]
  · intro a ha hf
    rw [enrich_one_eq_spec]
    simp only [enrichSpec]
    by_cases hc : strip (row.local_currency.getD "") = "" <;> simp [ha, hc, hf]

theorem C2_total_degradation_witness :
    geocode_city (.timeout : HttpOutcome (List GeoHit)) = none ∧
    get_current_weather (.malformed : HttpOutcome WeatherPayload) = none ∧
    fx_to_usd (.httpError 500 : HttpOutcome FxPayload) = none ∧
    ((enrich_one rowA failSess wClock).latitude = none ∧
     (enrich_one rowA failSess wClock).longitude = none ∧
     (enrich_one rowA failSess wClock).temperature_c = none ∧
     (enrich_one rowA failSess wClock).wind_speed_mps = none) :=
  have h := C2_total_degradation rowA failSess wClock
  ⟨h.2.1 .timeout (fun p hp => HttpOutcome.noConfusion hp),
   h.2.2.2.2.1 .malformed (fun p hp => HttpOutcome.noConfusion hp),
   h.2.2.2.2.2.2.2.1 (.httpError 500) (fun p hp => HttpOutcome.noConfusion hp),
   h.2.2.2.2.2.2.2.2.2.1 rfl⟩

/-- C3: in every produced record, latitude/longitude, temperature/wind
speed, and fx rate/USD amount are pairwise all-or-nothing. -/
theorem C3_all_or_nothing (row : Row) (session : Session) (clock : UtcTime) :
    ((enrich_one row session clock).latitude = none ↔
      (enrich_one row session clock).longitude = none) ∧
    ((enrich_one row session clock).temperature_c = none ↔
      (enrich_one row session clock).wind_speed_mps = none) ∧
    ((enrich_one row session clock).fx_rate_to_usd = none ↔
      (enrich_one row session clock).amount_usd = none) := by
  simp [enrich_one_eq_spec, enrichSpec]

/-- C4: `parse_amount` returns the parsed value on a non-negative numeric
string, `none` on a negative numeric string or a non-numeric string; its
result is always absent or non-negative; and the spec's three examples
hold. -/
theorem C4_parse_amount_behaviour :
    (∀ (s : String) (v : Rat), pyFloat s = some v → 0 ≤ v → parse_amount s = some v) ∧
    (∀ (s : String) (v : Rat), pyFloat s = some v → v < 0 → parse_amount s = none) ∧
    (∀ s : String, pyFloat s = none → parse_amount s = none) ∧
    (∀ s : String, parse_amount s = none ∨ ∃ x : Rat, parse_amount s = some x ∧ 0 ≤ x) ∧
    parse_amount "12.5" = some 12.5 ∧
    parse_amount "-1" = none ∧
    parse_amount "abc" = none := by
  refine ⟨?_, ?_, ?_, ?_, ?_, ?_, ?_⟩
  · intro s v h hv
    simp [parse_amount, h, not_lt.mpr hv]
  · intro s v h hv
    simp [parse_amount, h, hv]
  · intro s h
    simp [parse_amount, h]
  · intro s
    rcases h : pyFloat s with _ | v
    · exact Or.inl (by simp [parse_amount, h])
    · by_cases hv : v < 0
      · exact Or.inl (by simp [parse_amount, h, hv])
      · exact Or.inr ⟨v, by simp [parse_amount, h, hv], not_lt.mp hv⟩
  · with_unfolding_all decide
  · with_unfolding_all decide
  · with_unfolding_all decide

theorem C4_parse_amount_behaviour_witness :
    parse_amount "3" = some 3 ∧ parse_amount "-2" = none ∧ parse_amount "x" = none :=
  ⟨C4_parse_amount_behaviour.1 "3" 3 (by with_unfolding_all decide)
      (by with_unfolding_all decide),
   C4_parse_amount_behaviour.2.1 "-2" (-2) (by with_unfolding_all decide)
      (by with_unfolding_all decide),
   C4_parse_amount_behaviour.2.2.1 "x" (by with_unfolding_all decide)⟩

/-- C5: the FX lookup is consulted exactly when the parsed amount is
valid and the stripped currency is non-empty (otherwise the output is
independent of the FX service and the FX fields are absent); when it is
consulted and fails, `fx_rate_to_usd` and `amount_usd` are absent while
`amount_local` still equals the parsed input amount, which the FX step
never modifies. -/
theorem C5_fx_gating (row : Row) (session : Session) (clock : UtcTime) :
    (enrich_one row session clock).amount_local =
      parse_amount (strip (row.amount.getD "")) ∧
    ((parse_amount (strip (row.amount.getD "")) = none ∨
        strip (row.local_currency.getD "") = "") →
      (enrich_one row session clock).fx_rate_to_usd = none ∧
      (enrich_one row session clock).amount_usd = none ∧
      ∀ fx2 : String → Rat → HttpOutcome FxPayload,
        enrich_one row { session with fx := fx2 } clock =
          enrich_one row session clock) ∧
    (∀ a : Rat, parse_amount (strip (row.amount.getD "")) = some a →
      strip (row.local_currency.getD "") ≠ "" →
      (enrich_one row session clock).fx_rate_to_usd =
        (fx_to_usd (session.fx (strip (row.local_currency.getD "")) a)).map
          FxResult.fx_rate_to_usd ∧
      (enrich_one row session clock).amount_usd =
        (fx_to_usd (session.fx (strip (row.local_currency.getD "")) a)).map
          FxResult.amount_usd) ∧
    (∀ a : Rat, parse_amount (strip (row.amount.getD "")) = some a →
      strip (row.local_currency.getD "") ≠ "" →
      fx_to_usd (session.fx (strip (row.local_currency.getD "")) a) = none →
      (enrich_one row session clock).fx_rate_to_usd = none ∧
      (enrich_one row session clock).amount_usd = none ∧
      (enrich_one row session clock).amount_local = some a) := by
  refine ⟨?_, ?_, ?_, ?_⟩
  · simp [enrich_one_eq_spec, enrichSpec]
  · rintro (h | h) <;>
      cases hp : parse_amount (strip (row.amount.getD "")) <;>
      simp [enrich_one_eq_spec, enrichSpec, h, hp]
  · intro a ha hc
    simp [enrich_one_eq_spec, enrichSpec, ha, hc]
  · intro a ha hc hf
    simp [enrich_one_eq_spec, enrichSpec, ha, hc, hf]

theorem C5_fx_gating_witness :
    (enrich_one rowFx failSess wClock).fx_rate_to_usd = none ∧
    (enrich_one rowFx failSess wClock).amount_usd = none ∧
    (enrich_one rowFx failSess wClock).amount_local = some 5 :=
  (C5_fx_gating rowFx failSess wClock).2.2.2 5 (by decide) (by decide) rfl

/-- C6: loading succeeds exactly when the header's column set equals the
four required columns; any mismatch yields the fatal error whose payload
names exactly the missing and the unexpected columns; and on a mismatch
the whole pipeline aborts with that error for every session behaviour,
i.e. before any enrichment or network call. -/
theorem C6_schema_validation (fieldnames : Option (List String)) (rows : List Row) :
    (load_rows fieldnames rows = .ok rows ↔
      (∀ h : String, h ∈ fieldnames.getD [] ↔ h ∈ req_headers)) ∧
    (¬ (∀ h : String, h ∈ fieldnames.getD [] ↔ h ∈ req_headers) →
      ∃ e : SchemaError, load_rows fieldnames rows = .error e) ∧
    (∀ e : SchemaError, load_rows fieldnames rows = .error e →
      (∀ h : String, h ∈ e.missing ↔ (h ∈ req_headers ∧ h ∉ fieldnames.getD [])) ∧
      (∀ h : String, h ∈ e.extra ↔ (h ∈ fieldnames.getD [] ∧ h ∉ req_headers)) ∧
      (∀ (session : Session) (clock : UtcTime) (completion : List Nat),
        run_pipeline fieldnames rows session clock completion = .error e)) := by
  by_cases hm : headerSetMatches (fieldnames.getD []) = true
  · refine ⟨?_, ?_, ?_⟩
    · simp [load_rows, hm, (headerSetMatches_iff _).mp hm]
    · intro hno
      exact absurd ((headerSetMatches_iff _).mp hm) hno
    · intro e he
      simp [load_rows, hm] at he
  · refine ⟨?_, ?_, ?_⟩
    · constructor
      · intro he
        simp [load_rows, hm] at he
      · intro hall
        exact absurd ((headerSetMatches_iff _).mpr hall) hm
    · intro _
      rcases hload : load_rows fieldnames rows with e | rs
      · exact ⟨e, rfl⟩
      · exfalso
        simp [load_rows, hm] at hload
    · intro e he
      simp only [load_rows, hm] at he
      rw [if_neg (by simpa using hm)] at he
      injection he with he
      subst he
      refine ⟨?_, ?_, ?_⟩
      · intro h
        simp [List.mem_filter]
      · intro h
        simp [List.mem_dedup, List.mem_filter]
      · intro session clock completion
        simp [run_pipeline, load_rows, hm]

theorem C6_schema_validation_witness :
    ∃ e : SchemaError, load_rows (some badHeader) [] = .error e ∧
      "amount" ∈ e.missing ∧ "extra_col" ∈ e.extra ∧
      run_pipeline (some badHeader) [] failSess wClock [] = .error e := by
  have h := C6_schema_validation (some badHeader) []
  obtain ⟨e, he⟩ := h.2.1 (fun hall => by
    have h1 := (hall "amount").mpr (by decide)
    exact absurd h1 (by decide))
  obtain ⟨hmiss, hextra, hrun⟩ := h.2.2 e he
  exact ⟨e, he, (hmiss "amount").mpr (by refine ⟨by decide, by decide⟩),
    (hextra "extra_col").mpr (by refine ⟨by decide, by decide⟩),
    hrun failSess wClock []⟩

set_option maxRecDepth 8000 in
/-- C7: the driver's fan-in is completion order, not input order: there is
a legal completion order of the futures (a permutation of the task
indices) under which the collected output differs from the input order of
the rows; the index stored in `fut_map` is never threaded into the
collection. -/
theorem C7_completion_order :
    ∃ (rows : List Row) (session : Session) (clock : UtcTime) (completion : List Nat),
      completion.Perm (List.range rows.length) ∧
      run_pipeline (some req_headers) rows session clock completion =
        .ok (collect_results (rows.map (fun r => enrich_one r session clock)) completion) ∧
      collect_results (rows.map (fun r => enrich_one r session clock)) completion ≠
        rows.map (fun r => enrich_one r session clock) := by
  refine ⟨[rowA, rowB], failSess, wClock, [1, 0], by decide, rfl, by decide⟩

/-- C8: for any input passing schema validation and any completion order
of the futures, the output holds exactly one enriched record per input
row — its length equals the row count, it is a permutation of the
per-row enrichments, and no row's record (even one with zero successful
lookups) is discarded. -/
theorem C8_one_record_per_row (fieldnames : Option (List String)) (rows : List Row)
    (session : Session) (clock : UtcTime) (completion : List Nat)
    (out : List EnrichedRow)
    (hperm : completion.Perm (List.range rows.length))
    (hrun : run_pipeline fieldnames rows session clock completion = .ok out) :
    out.length = rows.length ∧
    out.Perm (rows.map (fun r => enrich_one r session clock)) ∧
    ∀ r ∈ rows, enrich_one r session clock ∈ out := by
  unfold run_pipeline at hrun
  rcases hload : load_rows fieldnames rows with e | rs <;> rw [hload] at hrun
  · cases hrun
  · injection hrun with hrun
    rw [load_rows_ok_eq hload] at hrun
    subst hrun
    have hp : completion.Perm
        (List.range (rows.map (fun r => enrich_one r session clock)).length) := by
      rwa [List.length_map]
    have hcp := collect_results_perm _ _ hp
    refine ⟨?_, hcp, ?_⟩
    · rw [hcp.length_eq, List.length_map]
    · intro r hr
      exact hcp.mem_iff.mpr (List.mem_map_of_mem _ hr)

set_option maxRecDepth 8000 in
theorem C8_one_record_per_row_witness :
    ∃ out : List EnrichedRow,
      run_pipeline (some req_headers) [rowA, rowB] failSess wClock [1, 0] = .ok out ∧
      out.length = 2 := by
  refine ⟨collect_results ([rowA, rowB].map (fun r => enrich_one r failSess wClock))
      [1, 0], rfl, ?_⟩
  exact (C8_one_record_per_row (some req_headers) [rowA, rowB] failSess wClock [1, 0]
    _ (by decide) rfl).1

/-- C9: every produced record's `retrieved_at` equals the formatted
current UTC clock (second precision), is non-empty, and does not depend
on any lookup outcome. -/
theorem C9_retrieved_at (row : Row) (session : Session) (clock : UtcTime) :
    (enrich_one row session clock).retrieved_at = utc_now_iso clock ∧
    (enrich_one row session clock).retrieved_at ≠ "" ∧
    ∀ session2 : Session,
      (enrich_one row session2 clock).retrieved_at =
        (enrich_one row session clock).retrieved_at := by
  refine ⟨?_, ?_, ?_⟩ <;>
    simp [enrich_one_eq_spec, enrichSpec, utc_now_iso_ne_empty]

/-- C10: missing or `None` input fields behave as the empty string; all
four fields are whitespace-stripped before use; the emitted raw fields
are the stripped values, the amount parser receives the stripped amount
string, and the geocode lookup receives the stripped city and country
code. -/
theorem C10_normalization (row : Row) (session : Session) (clock : UtcTime) :
    (enrich_one row session clock).city = strip (row.city.getD "") ∧
    (enrich_one row session clock).country_code = strip (row.country_code.getD "") ∧
    (enrich_one row session clock).local_currency = strip (row.local_currency.getD "") ∧
    (enrich_one row session clock).amount_local =
      parse_amount (strip (row.amount.getD "")) ∧
    (enrich_one row session clock).latitude =
      (geocode_city (session.geo (strip (row.city.getD ""))
        (strip (row.country_code.getD "")))).map Coords.lat ∧
    (enrich_one row session clock).longitude =
      (geocode_city (session.geo (strip (row.city.getD ""))
        (strip (row.country_code.getD "")))).map Coords.lon ∧
    enrich_one { city := none, country_code := none, local_currency := none,
                 amount := none } session clock =
      enrich_one { city := some "", country_code := some "", local_currency := some "",
                   amount := some "" } session clock := by
  refine ⟨?_, ?_, ?_, ?_, ?_, ?_, rfl⟩ <;>
    simp [enrich_one_eq_spec, enrichSpec]

end Enrich
